import Mathlib

/-!
Shallow embedding of `starlette_admin/fields.py`: a hierarchy of Python
dataclasses describing admin-UI fields.  Each `@dataclass` becomes a Lean
structure whose fields are exactly the dataclass fields (annotated class
attributes) in declaration order, with the same defaults; un-annotated
class-body attributes (`input_type`, `class_`, `error_class`) are NOT
dataclass fields in Python and are embedded as plain constants.
Python `Optional[T]` values become `Option T`; construction is a structure
literal (the generated `__init__`) followed by `post_init`
(`__post_init__`); `asdict` becomes an explicit `dict` function returning
the ordered key/value list of the dataclass fields.
-/

/-- Values that can appear in a serialized field mapping (the Python values
stored in field attributes and produced by `dataclasses.asdict`). -/
inductive PyVal where
  | none
  | str (s : String)
  | int (n : Int)
  | bool (b : Bool)
  | list (l : List PyVal)
  | dict (l : List (String × PyVal))

/-- Embeds `name.replace("_", " ")` from `BaseField.__post_init__`: with the
one-character pattern `"_"` and replacement `" "`, Python `str.replace`
replaces every underscore character by a space. -/
def replaceUnderscores (s : String) : String :=
  String.mk (s.data.map fun c => if c = '_' then ' ' else c)

/-- Embeds Python `str.capitalize()` (ASCII range, which covers the uses
here): the first character is uppercased and all remaining characters are
lowercased.  On the empty string it returns the empty string. -/
def pyCapitalize (s : String) : String :=
  match s.data with
  | [] => ""
  | c :: cs => String.mk (c.toUpper :: cs.map Char.toLower)

/-- The default-label derivation of `BaseField.__post_init__`:
`self.name.replace("_", " ").capitalize()`. -/
def deriveLabel (name : String) : String :=
  pyCapitalize (replaceUnderscores name)

/-- The spec's words taken literally: `capitalize_first_letter` uppercases
the first character and leaves the remaining characters unchanged.  Kept
separate from `pyCapitalize` (the code's behavior) so the two derivations
can be compared. -/
def capitalizeFirstLetter (s : String) : String :=
  match s.data with
  | [] => ""
  | c :: cs => String.mk (c.toUpper :: cs)

/-- The value of the `step` attribute of `_NumberField`, whose Python
annotation is `Union[str, int, None]`. -/
inductive StepValue where
  | vNone
  | vStr (s : String)
  | vInt (n : Int)
deriving DecidableEq, Repr

/-- Serialization of an `Optional[str]` attribute value. -/
def optStrV : Option String → PyVal
  | Option.none => PyVal.none
  | Option.some s => PyVal.str s

/-- Serialization of an `Optional[bool]` attribute value. -/
def optBoolV : Option Bool → PyVal
  | Option.none => PyVal.none
  | Option.some b => PyVal.bool b

/-- Serialization of an `Optional[int]` attribute value. -/
def optIntV : Option Int → PyVal
  | Option.none => PyVal.none
  | Option.some n => PyVal.int n

/-- Serialization of a `Union[str, int, None]` attribute value. -/
def stepV : StepValue → PyVal
  | StepValue.vNone => PyVal.none
  | StepValue.vStr s => PyVal.str s
  | StepValue.vInt n => PyVal.int n

/-- The dataclass fields of `BaseField`, in declaration order, with the
declared defaults as Lean default values.  A Python construction
`BaseField(name=..., label=..., ...)` is the structure literal (every
omitted argument takes its default) followed by `post_init`. -/
structure BaseField where
  name : String
  label : Option String := Option.none
  type : String := "BaseField"
  search_builder_type : Option String := Option.some "default"
  required : Option Bool := Option.some false
  is_array : Option Bool := Option.some false
  exclude_from_list : Option Bool := Option.some false
  exclude_from_detail : Option Bool := Option.some false
  exclude_from_create : Option Bool := Option.some false
  exclude_from_edit : Option Bool := Option.some false
  searchable : Option Bool := Option.some true
  orderable : Option Bool := Option.some true
  render_js : String := "js/text.js"
  form_template : String := "forms/input.html"
  form_js : Option String := Option.none
  display_template : String := "displays/text.html"
  display_js : Option String := Option.none
deriving DecidableEq, Repr

/-- Embeds `BaseField.__post_init__`: if `label` is `None` it is set to
`self.name.replace("_", " ").capitalize()`; otherwise nothing happens. -/
def BaseField.post_init (f : BaseField) : BaseField :=
  match f.label with
  | Option.none => { f with label := Option.some (deriveLabel f.name) }
  | Option.some _ => f

/-- Embeds `BaseField.dict`, i.e. `dataclasses.asdict(self)`: the ordered
mapping of the dataclass fields (and only those) to their values. -/
def BaseField.dict (f : BaseField) : List (String × PyVal) :=
  [("name", PyVal.str f.name),
   ("label", optStrV f.label),
   ("type", PyVal.str f.type),
   ("search_builder_type", optStrV f.search_builder_type),
   ("required", optBoolV f.required),
   ("is_array", optBoolV f.is_array),
   ("exclude_from_list", optBoolV f.exclude_from_list),
   ("exclude_from_detail", optBoolV f.exclude_from_detail),
   ("exclude_from_create", optBoolV f.exclude_from_create),
   ("exclude_from_edit", optBoolV f.exclude_from_edit),
   ("searchable", optBoolV f.searchable),
   ("orderable", optBoolV f.orderable),
   ("render_js", PyVal.str f.render_js),
   ("form_template", PyVal.str f.form_template),
   ("form_js", optStrV f.form_js),
   ("display_template", PyVal.str f.display_template),
   ("display_js", optStrV f.display_js)]

/-- Embeds `BooleanField`: overrides defaults only. -/
structure BooleanField extends BaseField where
  type := "BooleanField"
  search_builder_type := Option.some "bool"
  render_js := "js/bool.js"
  form_template := "forms/boolean.html"
  display_template := "displays/boolean.html"

/-- Embeds `StringField`.  The un-annotated class attributes `input_type`,
`class_` and `error_class` are not dataclass fields; `input_type` is embedded
as the constant `StringField.input_type`. -/
structure StringField extends BaseField where
  type := "StringField"
  search_builder_type := Option.some "string"
  help_text : Option String := Option.none
  render_js := "js/text.js"
  form_template := "forms/input.html"
  display_template := "displays/text.html"

/-- Embeds `_NumberField(StringField)`.  `search_builder_type` is
re-annotated as `str = "num"`; `max`, `min`, `step` are new dataclass
fields in this order.  The un-annotated `input_type = "number"` is the
constant `_NumberField.input_type`. -/
structure _NumberField extends StringField where
  type := "NumberField"
  search_builder_type := Option.some "num"
  max : Option Int := Option.none
  min : Option Int := Option.none
  step : StepValue := StepValue.vNone

/-- Embeds `IntegerField(_NumberField)`: overrides the `type` default;
`class_` is un-annotated and not a dataclass field. -/
structure IntegerField extends _NumberField where
  type := "IntegerField"

/-- Embeds `DecimalField(_NumberField)`: overrides the `type` default.
The class-body line `step = "any"` carries no type annotation, so it is a
plain class attribute, not a dataclass field default: the generated
`__init__` still uses `_NumberField`'s default `None` and assigns it to the
instance.  The intended value is kept as `DecimalField.step_class_attribute`
below. -/
structure DecimalField extends _NumberField where
  type := "DecimalField"

/-- The un-annotated class attribute `step = "any"` of `DecimalField`,
shadowed on every instance by the dataclass-generated `__init__`. -/
def DecimalField.step_class_attribute : String := "any"

/-- Embeds `TextAreaField(StringField)`: adds `maxlength` and `minlength`
and overrides the `form_template` default. -/
structure TextAreaField extends StringField where
  type := "TextAreaField"
  maxlength : Option Int := Option.none
  minlength : Option Int := Option.none
  form_template := "forms/textarea.html"

/-- Embeds `TagsField`. -/
structure TagsField extends BaseField where
  type := "tags"
  is_array := Option.some true

/-- Embeds `EmailField(StringField)`: only the `type` default changes. -/
structure EmailField extends StringField where
  type := "email"

/-- Embeds `PhoneField(StringField)`: the only class-body line is the
un-annotated `input_type = "phone"`, which is not a dataclass field, so the
dataclass fields and all their defaults (including `type = "StringField"`)
are exactly those of `StringField`. -/
structure PhoneField extends StringField where

/-- Embeds `EnumField`: `values` is a list of `{name, value}` dictionaries
with default factory `list` (empty). -/
structure EnumField extends BaseField where
  type := "enum"
  search_builder_type := Option.some "string"
  values : List (List (String × PyVal)) := []

/-- Embeds `DateTimeField`. -/
structure DateTimeField extends BaseField where
  type := "datetime"
  output_format : String := "%B %d, %Y %H:%M:%S"
  search_format : Option String := Option.none
  search_builder_type := Option.some "moment-MMMM D, YYYY HH:mm:ss"

/-- Embeds `DateField`. -/
structure DateField extends BaseField where
  type := "date"
  output_format : String := "%B %d, %Y"
  search_format : Option String := Option.some "YYYY-MM-DD"
  search_builder_type := Option.some "moment-MMMM D, YYYY"

/-- Embeds `TimeField`. -/
structure TimeField extends BaseField where
  type := "time"
  output_format : String := "%H:%M:%S"
  search_format : Option String := Option.some "HH:mm:ss"
  search_builder_type := Option.some "moment-HH:mm:ss"

/-- Embeds `JSONField`. -/
structure JSONField extends BaseField where
  type := "json"

/-- Embeds `FileField`. -/
structure FileField extends BaseField where
  type := "file"

/-- Embeds `ImageField(FileField)`. -/
structure ImageField extends FileField where
  type := "image"

/-- Embeds `RelationField`: adds `identity`. -/
structure RelationField extends BaseField where
  type := "relation"
  identity : Option String := Option.none

/-- Embeds `HasOne(RelationField)`: the class body is `pass`, so nothing
changes — in particular the `type` default stays `"relation"`. -/
structure HasOne extends RelationField where

/-- Embeds `HasMany(RelationField)`: adds `many = True` and overrides the
`is_array` default. -/
structure HasMany extends RelationField where
  many : Bool := true
  is_array := Option.some true

/-- Construction of a `BooleanField` runs the inherited `__post_init__`. -/
def BooleanField.post_init (f : BooleanField) : BooleanField :=
  { f with toBaseField := f.toBaseField.post_init }

/-- Construction of a `StringField` runs the inherited `__post_init__`. -/
def StringField.post_init (f : StringField) : StringField :=
  { f with toBaseField := f.toBaseField.post_init }

/-- Construction of a `_NumberField` runs the inherited `__post_init__`. -/
def _NumberField.post_init (f : _NumberField) : _NumberField :=
  { f with toStringField := f.toStringField.post_init }

/-- Construction of an `IntegerField` runs the inherited `__post_init__`. -/
def IntegerField.post_init (f : IntegerField) : IntegerField :=
  { f with to_NumberField := f.to_NumberField.post_init }

/-- Construction of a `DecimalField` runs the inherited `__post_init__`. -/
def DecimalField.post_init (f : DecimalField) : DecimalField :=
  { f with to_NumberField := f.to_NumberField.post_init }

/-- Construction of a `TextAreaField` runs the inherited `__post_init__`. -/
def TextAreaField.post_init (f : TextAreaField) : TextAreaField :=
  { f with toStringField := f.toStringField.post_init }

/-- Construction of a `TagsField` runs the inherited `__post_init__`. -/
def TagsField.post_init (f : TagsField) : TagsField :=
  { f with toBaseField := f.toBaseField.post_init }

/-- Construction of an `EmailField` runs the inherited `__post_init__`. -/
def EmailField.post_init (f : EmailField) : EmailField :=
  { f with toStringField := f.toStringField.post_init }

/-- Construction of a `PhoneField` runs the inherited `__post_init__`. -/
def PhoneField.post_init (f : PhoneField) : PhoneField :=
  { f with toStringField := f.toStringField.post_init }

/-- Construction of an `EnumField` runs the inherited `__post_init__`. -/
def EnumField.post_init (f : EnumField) : EnumField :=
  { f with toBaseField := f.toBaseField.post_init }

/-- Construction of a `DateTimeField` runs the inherited `__post_init__`. -/
def DateTimeField.post_init (f : DateTimeField) : DateTimeField :=
  { f with toBaseField := f.toBaseField.post_init }

/-- Construction of a `DateField` runs the inherited `__post_init__`. -/
def DateField.post_init (f : DateField) : DateField :=
  { f with toBaseField := f.toBaseField.post_init }

/-- Construction of a `TimeField` runs the inherited `__post_init__`. -/
def TimeField.post_init (f : TimeField) : TimeField :=
  { f with toBaseField := f.toBaseField.post_init }

/-- Construction of a `JSONField` runs the inherited `__post_init__`. -/
def JSONField.post_init (f : JSONField) : JSONField :=
  { f with toBaseField := f.toBaseField.post_init }

/-- Construction of a `FileField` runs the inherited `__post_init__`. -/
def FileField.post_init (f : FileField) : FileField :=
  { f with toBaseField := f.toBaseField.post_init }

/-- Construction of an `ImageField` runs the inherited `__post_init__`. -/
def ImageField.post_init (f : ImageField) : ImageField :=
  { f with toFileField := f.toFileField.post_init }

/-- Construction of a `RelationField` runs the inherited `__post_init__`. -/
def RelationField.post_init (f : RelationField) : RelationField :=
  { f with toBaseField := f.toBaseField.post_init }

/-- Construction of a `HasOne` runs the inherited `__post_init__`. -/
def HasOne.post_init (f : HasOne) : HasOne :=
  { f with toRelationField := f.toRelationField.post_init }

/-- Construction of a `HasMany` runs the inherited `__post_init__`. -/
def HasMany.post_init (f : HasMany) : HasMany :=
  { f with toRelationField := f.toRelationField.post_init }

/-- `asdict` of a `BooleanField`: same dataclass fields as `BaseField`. -/
def BooleanField.dict (f : BooleanField) : List (String × PyVal) :=
  f.toBaseField.dict

/-- `asdict` of a `StringField`: the `BaseField` fields then `help_text`. -/
def StringField.dict (f : StringField) : List (String × PyVal) :=
  f.toBaseField.dict ++ [("help_text", optStrV f.help_text)]

/-- `asdict` of a `_NumberField`: the `StringField` fields then `max`,
`min`, `step`. -/
def _NumberField.dict (f : _NumberField) : List (String × PyVal) :=
  f.toStringField.dict ++
    [("max", optIntV f.max), ("min", optIntV f.min), ("step", stepV f.step)]

/-- `asdict` of an `IntegerField`: same dataclass fields as `_NumberField`. -/
def IntegerField.dict (f : IntegerField) : List (String × PyVal) :=
  f.to_NumberField.dict

/-- `asdict` of a `DecimalField`: same dataclass fields as `_NumberField`. -/
def DecimalField.dict (f : DecimalField) : List (String × PyVal) :=
  f.to_NumberField.dict

/-- `asdict` of a `TextAreaField`: the `StringField` fields then
`maxlength`, `minlength`. -/
def TextAreaField.dict (f : TextAreaField) : List (String × PyVal) :=
  f.toStringField.dict ++
    [("maxlength", optIntV f.maxlength), ("minlength", optIntV f.minlength)]

/-- `asdict` of a `TagsField`: same dataclass fields as `BaseField`. -/
def TagsField.dict (f : TagsField) : List (String × PyVal) :=
  f.toBaseField.dict

/-- `asdict` of an `EmailField`: same dataclass fields as `StringField`. -/
def EmailField.dict (f : EmailField) : List (String × PyVal) :=
  f.toStringField.dict

/-- `asdict` of a `PhoneField`: same dataclass fields as `StringField`. -/
def PhoneField.dict (f : PhoneField) : List (String × PyVal) :=
  f.toStringField.dict

/-- `asdict` of an `EnumField`: the `BaseField` fields then `values`,
deep-converted (each entry is itself a dictionary). -/
def EnumField.dict (f : EnumField) : List (String × PyVal) :=
  f.toBaseField.dict ++ [("values", PyVal.list (f.values.map PyVal.dict))]

/-- `asdict` of a `DateTimeField`: the `BaseField` fields then
`output_format`, `search_format`. -/
def DateTimeField.dict (f : DateTimeField) : List (String × PyVal) :=
  f.toBaseField.dict ++
    [("output_format", PyVal.str f.output_format),
     ("search_format", optStrV f.search_format)]

/-- `asdict` of a `DateField`: the `BaseField` fields then `output_format`,
`search_format`. -/
def DateField.dict (f : DateField) : List (String × PyVal) :=
  f.toBaseField.dict ++
    [("output_format", PyVal.str f.output_format),
     ("search_format", optStrV f.search_format)]

/-- `asdict` of a `TimeField`: the `BaseField` fields then `output_format`,
`search_format`. -/
def TimeField.dict (f : TimeField) : List (String × PyVal) :=
  f.toBaseField.dict ++
    [("output_format", PyVal.str f.output_format),
     ("search_format", optStrV f.search_format)]

/-- `asdict` of a `JSONField`: same dataclass fields as `BaseField`. -/
def JSONField.dict (f : JSONField) : List (String × PyVal) :=
  f.toBaseField.dict

/-- `asdict` of a `FileField`: same dataclass fields as `BaseField`. -/
def FileField.dict (f : FileField) : List (String × PyVal) :=
  f.toBaseField.dict

/-- `asdict` of an `ImageField`: same dataclass fields as `FileField`. -/
def ImageField.dict (f : ImageField) : List (String × PyVal) :=
  f.toFileField.dict

/-- `asdict` of a `RelationField`: the `BaseField` fields then `identity`. -/
def RelationField.dict (f : RelationField) : List (String × PyVal) :=
  f.toBaseField.dict ++ [("identity", optStrV f.identity)]

/-- `asdict` of a `HasOne`: same dataclass fields as `RelationField`. -/
def HasOne.dict (f : HasOne) : List (String × PyVal) :=
  f.toRelationField.dict

/-- `asdict` of a `HasMany`: the `RelationField` fields then `many`. -/
def HasMany.dict (f : HasMany) : List (String × PyVal) :=
  f.toRelationField.dict ++ [("many", PyVal.bool f.many)]

/-- Modelled from the spec: the HTML-attribute-string-building helper
`html_params` lives in `starlette_admin/helpers.py`, which is not part of
the sources here; the spec describes it as escaping values "for safe
embedding in markup".  This escapes the standard markup metacharacters. -/
def htmlEscape (s : String) : String :=
  String.join (s.data.map fun c =>
    if c = '&' then "&amp;"
    else if c = '<' then "&lt;"
    else if c = '>' then "&gt;"
    else if c = '"' then "&quot;"
    else String.mk [c])

/-- Modelled from the spec: Python `str()` applied to an attribute value
before embedding it in the attribute string (only strings and integers are
passed by the `input_params` methods of `fields.py`). -/
def pyStr : PyVal → String
  | PyVal.none => "None"
  | PyVal.str s => s
  | PyVal.int n => toString n
  | PyVal.bool b => if b then "True" else "False"
  | PyVal.list _ => ""
  | PyVal.dict _ => ""

/-- Modelled from the spec: a value is skipped by the attribute-string
helper when it is "absent/empty" — Python `None` or the empty string. -/
def isAbsentOrEmpty : PyVal → Bool
  | PyVal.none => true
  | PyVal.str s => s == ""
  | _ => false

/-- Modelled from the spec: `html_params` (from the absent
`starlette_admin/helpers.py`) maps "a mapping of attribute-name → optional
value" to the list of `key="value"` pairs, "omitting any pair whose value
is absent/empty, with values escaped for safe embedding in markup". -/
def html_params_pairs (attrs : List (String × PyVal)) : List String :=
  attrs.filterMap fun kv =>
    if isAbsentOrEmpty kv.2 then Option.none
    else Option.some (kv.1 ++ "=\"" ++ htmlEscape (pyStr kv.2) ++ "\"")

/-- Modelled from the spec: `html_params` produces "a single string of
`key="value"` pairs space-joined" from the kept pairs. -/
def html_params (attrs : List (String × PyVal)) : String :=
  String.intercalate " " (html_params_pairs attrs)

/-- The un-annotated class attribute `input_type = "text"` of `StringField`. -/
def StringField.input_type : String := "text"

/-- The un-annotated class attribute `input_type = "number"` of
`_NumberField`; `IntegerField` and `DecimalField` inherit it. -/
def _NumberField.input_type : String := "number"

/-- The un-annotated class attribute `input_type = "phone"` of `PhoneField`. -/
def PhoneField.input_type : String := "phone"

/-- Embeds `StringField.input_params`:
`html_params(dict(type=self.input_type))`. -/
def StringField.input_params (_f : StringField) : String :=
  html_params [("type", PyVal.str StringField.input_type)]

/-- Embeds `_NumberField.input_params`:
`html_params(dict(type=self.input_type, min=self.min, max=self.max, step=self.step))`. -/
def _NumberField.input_params (f : _NumberField) : String :=
  html_params
    [("type", PyVal.str _NumberField.input_type),
     ("min", optIntV f.min),
     ("max", optIntV f.max),
     ("step", stepV f.step)]

/-- `IntegerField` inherits `_NumberField.input_params` (and its
`input_type = "number"`). -/
def IntegerField.input_params (f : IntegerField) : String :=
  f.to_NumberField.input_params

/-- `DecimalField` inherits `_NumberField.input_params` (and its
`input_type = "number"`). -/
def DecimalField.input_params (f : DecimalField) : String :=
  f.to_NumberField.input_params

/-- `PhoneField` inherits `StringField.input_params`, but `self.input_type`
resolves to the `PhoneField` class attribute `"phone"`. -/
def PhoneField.input_params (_f : PhoneField) : String :=
  html_params [("type", PyVal.str PhoneField.input_type)]

/-- Embeds `TextAreaField.input_params`:
`html_params(dict(minlength=self.minlength, maxlength=self.maxlength))`. -/
def TextAreaField.input_params (f : TextAreaField) : String :=
  html_params
    [("minlength", optIntV f.minlength), ("maxlength", optIntV f.maxlength)]

/-- A member of a Python enumeration: its symbolic name and its underlying
value. -/
structure PyEnumMember where
  name : String
  value : PyVal

/-- A Python exception as surfaced by `EnumField.from_enum`. -/
inductive PyError where
  | typeError (msg : String)
deriving DecidableEq, Repr

/-- A Python class object as passed to `EnumField.from_enum`: either an
enumeration class (metaclass `EnumMeta`), which is iterable and yields its
members in declaration order, or a class with the default metaclass `type`,
which defines no `__iter__`. -/
inductive PyType where
  | enumType (members : List PyEnumMember)
  | plainType (typename : String)

/-- Whether the class is an enumeration type. -/
def PyType.isEnum : PyType → Bool
  | PyType.enumType _ => true
  | PyType.plainType _ => false

/-- Embeds the iteration `map(lambda e: ..., enum_type)` forced by
`list(...)` in `from_enum`: iterating an enumeration class yields its
members in declaration order, while iterating a class whose metaclass is
the default `type` raises `TypeError: 'type' object is not iterable`. -/
def pyIterType : PyType → Except PyError (List PyEnumMember)
  | PyType.enumType ms => Except.ok ms
  | PyType.plainType _ =>
      Except.error (PyError.typeError "'type' object is not iterable")

/-- Embeds `EnumField.from_enum`: builds
`values = list(map(lambda e: dict(name=e.name, value=e.value), enum_type))`
and then constructs
`cls(name, values=values, is_array=is_array, searchable=searchable,
search_builder_type=search_builder_type)` — every other attribute takes its
default and `__post_init__` runs.  The Python defaults of the optional
arguments are `is_array=False`, `searchable=True`,
`search_builder_type="string"`; here they are passed explicitly. -/
def EnumField.from_enum (name : String) (enum_type : PyType)
    (is_array : Bool) (searchable : Bool)
    (search_builder_type : Option String) : Except PyError EnumField :=
  match pyIterType enum_type with
  | Except.error e => Except.error e
  | Except.ok members =>
      Except.ok (EnumField.post_init
        { name := name
          values :=
            members.map fun e => [("name", PyVal.str e.name), ("value", e.value)]
          is_array := Option.some is_array
          searchable := Option.some searchable
          search_builder_type := search_builder_type })

/-- Looks an attribute up by name in a serialized mapping (Python `d[k]` /
keyword passing `**`-style, which is by key, not by position). -/
def lookupKey (k : String) : List (String × PyVal) → Option PyVal
  | [] => Option.none
  | (q, v) :: rest => if k = q then Option.some v else lookupKey k rest

/-- Reads back a `str` attribute value. -/
def asStr : PyVal → Option String
  | PyVal.str s => Option.some s
  | _ => Option.none

/-- Reads back an `Optional[str]` attribute value. -/
def asOptStr : PyVal → Option (Option String)
  | PyVal.none => Option.some Option.none
  | PyVal.str s => Option.some (Option.some s)
  | _ => Option.none

/-- Reads back a `bool` attribute value. -/
def asBool : PyVal → Option Bool
  | PyVal.bool b => Option.some b
  | _ => Option.none

/-- Reads back an `Optional[bool]` attribute value. -/
def asOptBool : PyVal → Option (Option Bool)
  | PyVal.none => Option.some Option.none
  | PyVal.bool b => Option.some (Option.some b)
  | _ => Option.none

/-- Reads back an `Optional[int]` attribute value. -/
def asOptInt : PyVal → Option (Option Int)
  | PyVal.none => Option.some Option.none
  | PyVal.int n => Option.some (Option.some n)
  | _ => Option.none

/-- Reads back a `Union[str, int, None]` attribute value. -/
def asStep : PyVal → Option StepValue
  | PyVal.none => Option.some StepValue.vNone
  | PyVal.str s => Option.some (StepValue.vStr s)
  | PyVal.int n => Option.some (StepValue.vInt n)
  | _ => Option.none

/-- Reads back one entry of an `EnumField.values` list. -/
def asDict : PyVal → Option (List (String × PyVal))
  | PyVal.dict d => Option.some d
  | _ => Option.none

/-- Reads back the entries of an `EnumField.values` list one by one. -/
def asDictList : List PyVal → Option (List (List (String × PyVal)))
  | [] => Option.some []
  | v :: rest =>
      match asDict v, asDictList rest with
      | Option.some d, Option.some ds => Option.some (d :: ds)
      | _, _ => Option.none

/-- Reads back an `EnumField.values` attribute value. -/
def asValues : PyVal → Option (List (List (String × PyVal)))
  | PyVal.list l => asDictList l
  | _ => Option.none

/-- Re-hydrates the `BaseField` attributes from a serialized mapping,
attribute by name (keyword passing `BaseField(**d)` binds by name). -/
def BaseField.decode (d : List (String × PyVal)) : Option BaseField :=
  match (lookupKey "name" d).bind asStr,
        (lookupKey "label" d).bind asOptStr,
        (lookupKey "type" d).bind asStr,
        (lookupKey "search_builder_type" d).bind asOptStr,
        (lookupKey "required" d).bind asOptBool,
        (lookupKey "is_array" d).bind asOptBool,
        (lookupKey "exclude_from_list" d).bind asOptBool,
        (lookupKey "exclude_from_detail" d).bind asOptBool,
        (lookupKey "exclude_from_create" d).bind asOptBool,
        (lookupKey "exclude_from_edit" d).bind asOptBool,
        (lookupKey "searchable" d).bind asOptBool,
        (lookupKey "orderable" d).bind asOptBool,
        (lookupKey "render_js" d).bind asStr,
        (lookupKey "form_template" d).bind asStr,
        (lookupKey "form_js" d).bind asOptStr,
        (lookupKey "display_template" d).bind asStr,
        (lookupKey "display_js" d).bind asOptStr with
  | Option.some name, Option.some label, Option.some type,
    Option.some search_builder_type, Option.some required,
    Option.some is_array, Option.some exclude_from_list,
    Option.some exclude_from_detail, Option.some exclude_from_create,
    Option.some exclude_from_edit, Option.some searchable,
    Option.some orderable, Option.some render_js, Option.some form_template,
    Option.some form_js, Option.some display_template,
    Option.some display_js =>
      Option.some
        { name := name, label := label, type := type,
          search_builder_type := search_builder_type, required := required,
          is_array := is_array, exclude_from_list := exclude_from_list,
          exclude_from_detail := exclude_from_detail,
          exclude_from_create := exclude_from_create,
          exclude_from_edit := exclude_from_edit, searchable := searchable,
          orderable := orderable, render_js := render_js,
          form_template := form_template, form_js := form_js,
          display_template := display_template, display_js := display_js }
  | _, _, _, _, _, _, _, _, _, _, _, _, _, _, _, _, _ => Option.none

/-- Re-hydrates the `StringField` attributes from a serialized mapping. -/
def StringField.decode (d : List (String × PyVal)) : Option StringField :=
  match BaseField.decode d, (lookupKey "help_text" d).bind asOptStr with
  | Option.some base, Option.some help_text =>
      Option.some { toBaseField := base, help_text := help_text }
  | _, _ => Option.none

/-- Re-hydrates the `_NumberField` attributes from a serialized mapping. -/
def _NumberField.decode (d : List (String × PyVal)) : Option _NumberField :=
  match StringField.decode d, (lookupKey "max" d).bind asOptInt,
        (lookupKey "min" d).bind asOptInt, (lookupKey "step" d).bind asStep with
  | Option.some s, Option.some max, Option.some min, Option.some step =>
      Option.some { toStringField := s, max := max, min := min, step := step }
  | _, _, _, _ => Option.none

/-- Re-hydrates the `TextAreaField` attributes from a serialized mapping. -/
def TextAreaField.decode (d : List (String × PyVal)) : Option TextAreaField :=
  match StringField.decode d, (lookupKey "maxlength" d).bind asOptInt,
        (lookupKey "minlength" d).bind asOptInt with
  | Option.some s, Option.some maxlength, Option.some minlength =>
      Option.some
        { toStringField := s, maxlength := maxlength, minlength := minlength }
  | _, _, _ => Option.none

/-- Re-hydrates the `EnumField` attributes from a serialized mapping. -/
def EnumField.decode (d : List (String × PyVal)) : Option EnumField :=
  match BaseField.decode d, (lookupKey "values" d).bind asValues with
  | Option.some base, Option.some values =>
      Option.some { toBaseField := base, values := values }
  | _, _ => Option.none

/-- Re-hydrates the `DateTimeField` attributes from a serialized mapping. -/
def DateTimeField.decode (d : List (String × PyVal)) : Option DateTimeField :=
  match BaseField.decode d, (lookupKey "output_format" d).bind asStr,
        (lookupKey "search_format" d).bind asOptStr with
  | Option.some base, Option.some output_format, Option.some search_format =>
      Option.some
        { toBaseField := base, output_format := output_format,
          search_format := search_format }
  | _, _, _ => Option.none

/-- Re-hydrates the `DateField` attributes from a serialized mapping. -/
def DateField.decode (d : List (String × PyVal)) : Option DateField :=
  match BaseField.decode d, (lookupKey "output_format" d).bind asStr,
        (lookupKey "search_format" d).bind asOptStr with
  | Option.some base, Option.some output_format, Option.some search_format =>
      Option.some
        { toBaseField := base, output_format := output_format,
          search_format := search_format }
  | _, _, _ => Option.none

/-- Re-hydrates the `TimeField` attributes from a serialized mapping. -/
def TimeField.decode (d : List (String × PyVal)) : Option TimeField :=
  match BaseField.decode d, (lookupKey "output_format" d).bind asStr,
        (lookupKey "search_format" d).bind asOptStr with
  | Option.some base, Option.some output_format, Option.some search_format =>
      Option.some
        { toBaseField := base, output_format := output_format,
          search_format := search_format }
  | _, _, _ => Option.none

/-- Re-hydrates the `RelationField` attributes from a serialized mapping. -/
def RelationField.decode (d : List (String × PyVal)) : Option RelationField :=
  match BaseField.decode d, (lookupKey "identity" d).bind asOptStr with
  | Option.some base, Option.some identity =>
      Option.some { toBaseField := base, identity := identity }
  | _, _ => Option.none

/-- Re-hydrates the `HasMany` attributes from a serialized mapping. -/
def HasMany.decode (d : List (String × PyVal)) : Option HasMany :=
  match RelationField.decode d, (lookupKey "many" d).bind asBool with
  | Option.some r, Option.some many =>
      Option.some { toRelationField := r, many := many }
  | _, _ => Option.none

/-- Re-hydrates the `BooleanField` attributes from a serialized mapping. -/
def BooleanField.decode (d : List (String × PyVal)) : Option BooleanField :=
  (BaseField.decode d).map fun b => { toBaseField := b }

/-- Re-hydrates the `IntegerField` attributes from a serialized mapping. -/
def IntegerField.decode (d : List (String × PyVal)) : Option IntegerField :=
  (_NumberField.decode d).map fun n => { to_NumberField := n }

/-- Re-hydrates the `DecimalField` attributes from a serialized mapping. -/
def DecimalField.decode (d : List (String × PyVal)) : Option DecimalField :=
  (_NumberField.decode d).map fun n => { to_NumberField := n }

/-- Re-hydrates the `TagsField` attributes from a serialized mapping. -/
def TagsField.decode (d : List (String × PyVal)) : Option TagsField :=
  (BaseField.decode d).map fun b => { toBaseField := b }

/-- Re-hydrates the `EmailField` attributes from a serialized mapping. -/
def EmailField.decode (d : List (String × PyVal)) : Option EmailField :=
  (StringField.decode d).map fun s => { toStringField := s }

/-- Re-hydrates the `PhoneField` attributes from a serialized mapping. -/
def PhoneField.decode (d : List (String × PyVal)) : Option PhoneField :=
  (StringField.decode d).map fun s => { toStringField := s }

/-- Re-hydrates the `JSONField` attributes from a serialized mapping. -/
def JSONField.decode (d : List (String × PyVal)) : Option JSONField :=
  (BaseField.decode d).map fun b => { toBaseField := b }

/-- Re-hydrates the `FileField` attributes from a serialized mapping. -/
def FileField.decode (d : List (String × PyVal)) : Option FileField :=
  (BaseField.decode d).map fun b => { toBaseField := b }

/-- Re-hydrates the `ImageField` attributes from a serialized mapping. -/
def ImageField.decode (d : List (String × PyVal)) : Option ImageField :=
  (FileField.decode d).map fun b => { toFileField := b }

/-- Re-hydrates the `HasOne` attributes from a serialized mapping. -/
def HasOne.decode (d : List (String × PyVal)) : Option HasOne :=
  (RelationField.decode d).map fun r => { toRelationField := r }

/-- Re-hydrating a `BaseField` from a serialized mapping: the attributes are
read back by name and construction (including `__post_init__`) runs. -/
def BaseField.rehydrate (d : List (String × PyVal)) : Option BaseField :=
  (BaseField.decode d).map BaseField.post_init

/-- Re-hydrating a `BooleanField` from a serialized mapping. -/
def BooleanField.rehydrate (d : List (String × PyVal)) : Option BooleanField :=
  (BooleanField.decode d).map BooleanField.post_init

/-- Re-hydrating a `StringField` from a serialized mapping. -/
def StringField.rehydrate (d : List (String × PyVal)) : Option StringField :=
  (StringField.decode d).map StringField.post_init

/-- Re-hydrating a `_NumberField` from a serialized mapping. -/
def _NumberField.rehydrate (d : List (String × PyVal)) : Option _NumberField :=
  (_NumberField.decode d).map _NumberField.post_init

/-- Re-hydrating an `IntegerField` from a serialized mapping. -/
def IntegerField.rehydrate (d : List (String × PyVal)) : Option IntegerField :=
  (IntegerField.decode d).map IntegerField.post_init

/-- Re-hydrating a `DecimalField` from a serialized mapping. -/
def DecimalField.rehydrate (d : List (String × PyVal)) : Option DecimalField :=
  (DecimalField.decode d).map DecimalField.post_init

/-- Re-hydrating a `TextAreaField` from a serialized mapping. -/
def TextAreaField.rehydrate (d : List (String × PyVal)) : Option TextAreaField :=
  (TextAreaField.decode d).map TextAreaField.post_init

/-- Re-hydrating a `TagsField` from a serialized mapping. -/
def TagsField.rehydrate (d : List (String × PyVal)) : Option TagsField :=
  (TagsField.decode d).map TagsField.post_init

/-- Re-hydrating an `EmailField` from a serialized mapping. -/
def EmailField.rehydrate (d : List (String × PyVal)) : Option EmailField :=
  (EmailField.decode d).map EmailField.post_init

/-- Re-hydrating a `PhoneField` from a serialized mapping. -/
def PhoneField.rehydrate (d : List (String × PyVal)) : Option PhoneField :=
  (PhoneField.decode d).map PhoneField.post_init

/-- Re-hydrating an `EnumField` from a serialized mapping. -/
def EnumField.rehydrate (d : List (String × PyVal)) : Option EnumField :=
  (EnumField.decode d).map EnumField.post_init

/-- Re-hydrating a `DateTimeField` from a serialized mapping. -/
def DateTimeField.rehydrate (d : List (String × PyVal)) : Option DateTimeField :=
  (DateTimeField.decode d).map DateTimeField.post_init

/-- Re-hydrating a `DateField` from a serialized mapping. -/
def DateField.rehydrate (d : List (String × PyVal)) : Option DateField :=
  (DateField.decode d).map DateField.post_init

/-- Re-hydrating a `TimeField` from a serialized mapping. -/
def TimeField.rehydrate (d : List (String × PyVal)) : Option TimeField :=
  (TimeField.decode d).map TimeField.post_init

/-- Re-hydrating a `JSONField` from a serialized mapping. -/
def JSONField.rehydrate (d : List (String × PyVal)) : Option JSONField :=
  (JSONField.decode d).map JSONField.post_init

/-- Re-hydrating a `FileField` from a serialized mapping. -/
def FileField.rehydrate (d : List (String × PyVal)) : Option FileField :=
  (FileField.decode d).map FileField.post_init

/-- Re-hydrating an `ImageField` from a serialized mapping. -/
def ImageField.rehydrate (d : List (String × PyVal)) : Option ImageField :=
  (ImageField.decode d).map ImageField.post_init

/-- Re-hydrating a `RelationField` from a serialized mapping. -/
def RelationField.rehydrate (d : List (String × PyVal)) : Option RelationField :=
  (RelationField.decode d).map RelationField.post_init

/-- Re-hydrating a `HasOne` from a serialized mapping. -/
def HasOne.rehydrate (d : List (String × PyVal)) : Option HasOne :=
  (HasOne.decode d).map HasOne.post_init

/-- Re-hydrating a `HasMany` from a serialized mapping. -/
def HasMany.rehydrate (d : List (String × PyVal)) : Option HasMany :=
  (HasMany.decode d).map HasMany.post_init

/-- The declared dataclass fields of `BaseField`, in order. -/
def BaseField.field_names : List String :=
  ["name", "label", "type", "search_builder_type", "required", "is_array",
   "exclude_from_list", "exclude_from_detail", "exclude_from_create",
   "exclude_from_edit", "searchable", "orderable", "render_js",
   "form_template", "form_js", "display_template", "display_js"]

/-- The declared dataclass fields of `BooleanField`, in order. -/
def BooleanField.field_names : List String := BaseField.field_names

/-- The declared dataclass fields of `StringField`, in order. -/
def StringField.field_names : List String :=
  BaseField.field_names ++ ["help_text"]

/-- The declared dataclass fields of `_NumberField`, in order. -/
def _NumberField.field_names : List String :=
  StringField.field_names ++ ["max", "min", "step"]

/-- The declared dataclass fields of `IntegerField`, in order. -/
def IntegerField.field_names : List String := _NumberField.field_names

/-- The declared dataclass fields of `DecimalField`, in order. -/
def DecimalField.field_names : List String := _NumberField.field_names

/-- The declared dataclass fields of `TextAreaField`, in order. -/
def TextAreaField.field_names : List String :=
  StringField.field_names ++ ["maxlength", "minlength"]

/-- The declared dataclass fields of `TagsField`, in order. -/
def TagsField.field_names : List String := BaseField.field_names

/-- The declared dataclass fields of `EmailField`, in order. -/
def EmailField.field_names : List String := StringField.field_names

/-- The declared dataclass fields of `PhoneField`, in order. -/
def PhoneField.field_names : List String := StringField.field_names

/-- The declared dataclass fields of `EnumField`, in order. -/
def EnumField.field_names : List String := BaseField.field_names ++ ["values"]

/-- The declared dataclass fields of `DateTimeField`, in order. -/
def DateTimeField.field_names : List String :=
  BaseField.field_names ++ ["output_format", "search_format"]

/-- The declared dataclass fields of `DateField`, in order. -/
def DateField.field_names : List String :=
  BaseField.field_names ++ ["output_format", "search_format"]

/-- The declared dataclass fields of `TimeField`, in order. -/
def TimeField.field_names : List String :=
  BaseField.field_names ++ ["output_format", "search_format"]

/-- The declared dataclass fields of `JSONField`, in order. -/
def JSONField.field_names : List String := BaseField.field_names

/-- The declared dataclass fields of `FileField`, in order. -/
def FileField.field_names : List String := BaseField.field_names

/-- The declared dataclass fields of `ImageField`, in order. -/
def ImageField.field_names : List String := FileField.field_names

/-- The declared dataclass fields of `RelationField`, in order. -/
def RelationField.field_names : List String :=
  BaseField.field_names ++ ["identity"]

/-- The declared dataclass fields of `HasOne`, in order. -/
def HasOne.field_names : List String := RelationField.field_names

/-- The declared dataclass fields of `HasMany`, in order. -/
def HasMany.field_names : List String := RelationField.field_names ++ ["many"]

theorem asStr_strV (s : String) : asStr (PyVal.str s) = Option.some s := rfl

theorem asOptStr_optStrV (x : Option String) :
    asOptStr (optStrV x) = Option.some x := by
  cases x <;> rfl

theorem asOptBool_optBoolV (x : Option Bool) :
    asOptBool (optBoolV x) = Option.some x := by
  cases x <;> rfl

theorem asOptInt_optIntV (x : Option Int) :
    asOptInt (optIntV x) = Option.some x := by
  cases x <;> rfl

theorem asStep_stepV (x : StepValue) : asStep (stepV x) = Option.some x := by
  cases x <;> rfl

theorem asBool_boolV (b : Bool) : asBool (PyVal.bool b) = Option.some b := rfl

theorem asValues_map (l : List (List (String × PyVal))) :
    asValues (PyVal.list (l.map PyVal.dict)) = Option.some l := by
  induction l with
  | nil => rfl
  | cons h t ih =>
      simp only [asValues, List.map_cons, asDictList, asDict] at *
      simp [ih]

theorem decode_dict_BaseField (f : BaseField) :
    BaseField.decode f.dict = Option.some f := by
  simp [BaseField.decode, BaseField.dict, lookupKey, asStr_strV,
    asOptStr_optStrV, asOptBool_optBoolV]

theorem decode_dict_StringField (f : StringField) :
    StringField.decode f.dict = Option.some f := by
  simp [StringField.decode, StringField.dict, BaseField.decode, BaseField.dict,
    lookupKey, asStr_strV, asOptStr_optStrV, asOptBool_optBoolV]

theorem decode_dict__NumberField (f : _NumberField) :
    _NumberField.decode f.dict = Option.some f := by
  simp [_NumberField.decode, _NumberField.dict, StringField.decode,
    StringField.dict, BaseField.decode, BaseField.dict, lookupKey, asStr_strV,
    asOptStr_optStrV, asOptBool_optBoolV, asOptInt_optIntV, asStep_stepV]

theorem decode_dict_TextAreaField (f : TextAreaField) :
    TextAreaField.decode f.dict = Option.some f := by
  simp [TextAreaField.decode, TextAreaField.dict, StringField.decode,
    StringField.dict, BaseField.decode, BaseField.dict, lookupKey, asStr_strV,
    asOptStr_optStrV, asOptBool_optBoolV, asOptInt_optIntV]

theorem decode_dict_EnumField (f : EnumField) :
    EnumField.decode f.dict = Option.some f := by
  simp [EnumField.decode, EnumField.dict, BaseField.decode, BaseField.dict,
    lookupKey, asStr_strV, asOptStr_optStrV, asOptBool_optBoolV, asValues_map]

theorem decode_dict_DateTimeField (f : DateTimeField) :
    DateTimeField.decode f.dict = Option.some f := by
  simp [DateTimeField.decode, DateTimeField.dict, BaseField.decode,
    BaseField.dict, lookupKey, asStr_strV, asOptStr_optStrV, asOptBool_optBoolV]

theorem decode_dict_DateField (f : DateField) :
    DateField.decode f.dict = Option.some f := by
  simp [DateField.decode, DateField.dict, BaseField.decode, BaseField.dict,
    lookupKey, asStr_strV, asOptStr_optStrV, asOptBool_optBoolV]

theorem decode_dict_TimeField (f : TimeField) :
    TimeField.decode f.dict = Option.some f := by
  simp [TimeField.decode, TimeField.dict, BaseField.decode, BaseField.dict,
    lookupKey, asStr_strV, asOptStr_optStrV, asOptBool_optBoolV]

theorem decode_dict_RelationField (f : RelationField) :
    RelationField.decode f.dict = Option.some f := by
  simp [RelationField.decode, RelationField.dict, BaseField.decode,
    BaseField.dict, lookupKey, asStr_strV, asOptStr_optStrV, asOptBool_optBoolV]

theorem decode_dict_HasMany (f : HasMany) :
    HasMany.decode f.dict = Option.some f := by
  simp [HasMany.decode, HasMany.dict, RelationField.decode, RelationField.dict,
    BaseField.decode, BaseField.dict, lookupKey, asStr_strV, asOptStr_optStrV,
    asOptBool_optBoolV, asBool_boolV]

theorem decode_dict_BooleanField (f : BooleanField) :
    BooleanField.decode f.dict = Option.some f := by
  simp [BooleanField.decode, BooleanField.dict, decode_dict_BaseField]

theorem decode_dict_IntegerField (f : IntegerField) :
    IntegerField.decode f.dict = Option.some f := by
  simp [IntegerField.decode, IntegerField.dict, decode_dict__NumberField]

theorem decode_dict_DecimalField (f : DecimalField) :
    DecimalField.decode f.dict = Option.some f := by
  simp [DecimalField.decode, DecimalField.dict, decode_dict__NumberField]

theorem decode_dict_TagsField (f : TagsField) :
    TagsField.decode f.dict = Option.some f := by
  simp [TagsField.decode, TagsField.dict, decode_dict_BaseField]

theorem decode_dict_EmailField (f : EmailField) :
    EmailField.decode f.dict = Option.some f := by
  simp [EmailField.decode, EmailField.dict, decode_dict_StringField]

theorem decode_dict_PhoneField (f : PhoneField) :
    PhoneField.decode f.dict = Option.some f := by
  simp [PhoneField.decode, PhoneField.dict, decode_dict_StringField]

theorem decode_dict_JSONField (f : JSONField) :
    JSONField.decode f.dict = Option.some f := by
  simp [JSONField.decode, JSONField.dict, decode_dict_BaseField]

theorem decode_dict_FileField (f : FileField) :
    FileField.decode f.dict = Option.some f := by
  simp [FileField.decode, FileField.dict, decode_dict_BaseField]

theorem decode_dict_ImageField (f : ImageField) :
    ImageField.decode f.dict = Option.some f := by
  simp [ImageField.decode, ImageField.dict, decode_dict_FileField]

theorem decode_dict_HasOne (f : HasOne) :
    HasOne.decode f.dict = Option.some f := by
  simp [HasOne.decode, HasOne.dict, decode_dict_RelationField]

theorem post_init_idem_BaseField (f : BaseField) :
    f.post_init.post_init = f.post_init := by
  rcases h : f.label with _ | l <;> simp [BaseField.post_init, h]

theorem post_init_idem_BooleanField (f : BooleanField) :
    f.post_init.post_init = f.post_init := by
  simp [BooleanField.post_init, post_init_idem_BaseField]

theorem post_init_idem_StringField (f : StringField) :
    f.post_init.post_init = f.post_init := by
  simp [StringField.post_init, post_init_idem_BaseField]

theorem post_init_idem__NumberField (f : _NumberField) :
    f.post_init.post_init = f.post_init := by
  simp [_NumberField.post_init, post_init_idem_StringField]

theorem post_init_idem_IntegerField (f : IntegerField) :
    f.post_init.post_init = f.post_init := by
  simp [IntegerField.post_init, post_init_idem__NumberField]

theorem post_init_idem_DecimalField (f : DecimalField) :
    f.post_init.post_init = f.post_init := by
  simp [DecimalField.post_init, post_init_idem__NumberField]

theorem post_init_idem_TextAreaField (f : TextAreaField) :
    f.post_init.post_init = f.post_init := by
  simp [TextAreaField.post_init, post_init_idem_StringField]

theorem post_init_idem_TagsField (f : TagsField) :
    f.post_init.post_init = f.post_init := by
  simp [TagsField.post_init, post_init_idem_BaseField]

theorem post_init_idem_EmailField (f : EmailField) :
    f.post_init.post_init = f.post_init := by
  simp [EmailField.post_init, post_init_idem_StringField]

theorem post_init_idem_PhoneField (f : PhoneField) :
    f.post_init.post_init = f.post_init := by
  simp [PhoneField.post_init, post_init_idem_StringField]

theorem post_init_idem_EnumField (f : EnumField) :
    f.post_init.post_init = f.post_init := by
  simp [EnumField.post_init, post_init_idem_BaseField]

theorem post_init_idem_DateTimeField (f : DateTimeField) :
    f.post_init.post_init = f.post_init := by
  simp [DateTimeField.post_init, post_init_idem_BaseField]

theorem post_init_idem_DateField (f : DateField) :
    f.post_init.post_init = f.post_init := by
  simp [DateField.post_init, post_init_idem_BaseField]

theorem post_init_idem_TimeField (f : TimeField) :
    f.post_init.post_init = f.post_init := by
  simp [TimeField.post_init, post_init_idem_BaseField]

theorem post_init_idem_JSONField (f : JSONField) :
    f.post_init.post_init = f.post_init := by
  simp [JSONField.post_init, post_init_idem_BaseField]

theorem post_init_idem_FileField (f : FileField) :
    f.post_init.post_init = f.post_init := by
  simp [FileField.post_init, post_init_idem_BaseField]

theorem post_init_idem_ImageField (f : ImageField) :
    f.post_init.post_init = f.post_init := by
  simp [ImageField.post_init, post_init_idem_FileField]

theorem post_init_idem_RelationField (f : RelationField) :
    f.post_init.post_init = f.post_init := by
  simp [RelationField.post_init, post_init_idem_BaseField]

theorem post_init_idem_HasOne (f : HasOne) :
    f.post_init.post_init = f.post_init := by
  simp [HasOne.post_init, post_init_idem_RelationField]

theorem post_init_idem_HasMany (f : HasMany) :
    f.post_init.post_init = f.post_init := by
  simp [HasMany.post_init, post_init_idem_RelationField]

/-- C1 counterexample: for a field constructed with `name="user_ID"` and no
explicit label, the code derives `label="User id"` — Python
`str.capitalize` lowercases everything after the first character — whereas
replacing underscores and capitalizing only the first letter gives
`"User ID"`, so `label = capitalize_first_letter(name.replace("_", " "))`
fails at this input. -/
theorem claim_C1_counterexample :
    (BaseField.post_init { name := "user_ID" }).label = Option.some "User id" ∧
    capitalizeFirstLetter (replaceUnderscores "user_ID") = "User ID" ∧
    ("User id" : String) ≠ "User ID" := by
  refine ⟨by decide, by decide, by decide⟩

/-- C1 (amended): for every field constructed without an explicit label,
the label is derived from name by replacing every underscore with a space
and applying Python `str.capitalize` — the first character uppercased and
the remaining characters lowercased; in particular `name="email_address"`
yields `label="Email address"`. -/
theorem claim_C1_amended :
    (∀ f : BaseField,
      (BaseField.post_init { f with label := Option.none }).label
        = Option.some (pyCapitalize (replaceUnderscores f.name))) ∧
    (BaseField.post_init { name := "email_address" }).label
      = Option.some "Email address" := by
  refine ⟨fun f => rfl, by decide⟩

/-- C2: evaluating the code at the failing input: a Decimal field
constructed without a step override has `step=None` — both as an attribute
and in its serialized mapping — not the string `"any"`.  The class-body
line `step = "any"` lacks a type annotation, so it is not a dataclass field
default and the generated `__init__` shadows it with `_NumberField`'s
default `None` on every instance. -/
theorem claim_C2_code_eval :
    (DecimalField.post_init { name := "price" }).step = StepValue.vNone ∧
    lookupKey "step"
        (DecimalField.dict (DecimalField.post_init { name := "price" }))
      = Option.some PyVal.none ∧
    StepValue.vNone ≠ StepValue.vStr DecimalField.step_class_attribute := by
  refine ⟨rfl, rfl, by decide⟩

/-- C3: for every enumeration type, `EnumField.from_enum` (called with its
default optional arguments) yields a field whose `values` sequence has
exactly one `{name, value}` mapping per member, in declared member order,
carrying the member's symbolic name under `"name"` and its underlying value
under `"value"`; the two-member example NEW="new", DONE="done" is evaluated
concretely. -/
theorem claim_C3 :
    (∀ (name : String) (members : List PyEnumMember),
      (EnumField.from_enum name (PyType.enumType members) false true
          (Option.some "string")).map EnumField.values
        = Except.ok (members.map fun e =>
            [("name", PyVal.str e.name), ("value", e.value)])) ∧
    (EnumField.from_enum "status"
        (PyType.enumType
          [{ name := "NEW", value := PyVal.str "new" },
           { name := "DONE", value := PyVal.str "done" }]) false true
        (Option.some "string")).map EnumField.values
      = Except.ok
          [[("name", PyVal.str "NEW"), ("value", PyVal.str "new")],
           [("name", PyVal.str "DONE"), ("value", PyVal.str "done")]] := by
  refine ⟨fun name members => rfl, rfl⟩

/-- C4: for every non-enumeration type, `EnumField.from_enum` fails with a
TypeError — iterating a class whose metaclass is the default `type` raises
`TypeError: 'type' object is not iterable` — rather than returning an empty
or otherwise valid field. -/
theorem claim_C4 (t : PyType) (h : t.isEnum = false) (name : String)
    (ia s : Bool) (sbt : Option String) :
    EnumField.from_enum name t ia s sbt
      = Except.error (PyError.typeError "'type' object is not iterable") := by
  cases t with
  | enumType ms => simp [PyType.isEnum] at h
  | plainType n => rfl

/-- C4 witness: the concrete non-enumeration type `int`, with the default
optional arguments of `from_enum`. -/
theorem claim_C4_witness :
    (PyType.plainType "int").isEnum = false ∧
    EnumField.from_enum "status" (PyType.plainType "int") false true
        (Option.some "string")
      = Except.error (PyError.typeError "'type' object is not iterable") :=
  ⟨rfl, claim_C4 (PyType.plainType "int") rfl "status" false true
    (Option.some "string")⟩

/-- C5: `IntegerField(name="age", min=0, max=120)` produces the attribute
string `type="number" min="0" max="120"` — the pairs `type="number"`,
`min="0"`, `max="120"` and nothing else, in particular no `step` pair — and
in general a Number-like field emits `type` always and `min`, `max`, `step`
exactly when the attribute is set (a set-but-empty `step` string also being
omitted, per the helper's absent/empty rule). -/
theorem claim_C5 :
    (IntegerField.input_params
        (IntegerField.post_init
          { name := "age", min := Option.some 0, max := Option.some 120 })
      = "type=\"number\" min=\"0\" max=\"120\"") ∧
    (html_params_pairs
        [("type", PyVal.str _NumberField.input_type),
         ("min", optIntV (Option.some 0)), ("max", optIntV (Option.some 120)),
         ("step", stepV StepValue.vNone)]
      = ["type=\"number\"", "min=\"0\"", "max=\"120\""]) ∧
    (∀ f : _NumberField,
      _NumberField.input_params f
        = String.intercalate " "
            (List.reduceOption
              [Option.some "type=\"number\"",
               f.min.map (fun n : Int =>
                 "min=\"" ++ htmlEscape (toString n) ++ "\""),
               f.max.map (fun n : Int =>
                 "max=\"" ++ htmlEscape (toString n) ++ "\""),
               match f.step with
               | StepValue.vNone => Option.none
               | StepValue.vStr s =>
                   if s = "" then Option.none
                   else Option.some ("step=\"" ++ htmlEscape s ++ "\"")
               | StepValue.vInt n =>
                   Option.some ("step=\"" ++ htmlEscape (toString n) ++ "\"")])) := by
  refine ⟨by decide, by decide, ?_⟩
  intro f
  rcases hmin : f.min with _ | mn <;>
    rcases hmax : f.max with _ | mx <;>
      rcases hstep : f.step with _ | s | sn <;>
        simp only [_NumberField.input_params, html_params, html_params_pairs,
          _NumberField.input_type, isAbsentOrEmpty, pyStr, optIntV, stepV,
          hmin, hmax, hstep, List.filterMap_cons, List.filterMap_nil,
          List.reduceOption_cons_of_some, List.reduceOption_nil] <;>
        first
          | rfl
          | (by_cases hs : s = "" <;> simp [hs] <;> rfl)

/-- C6 counterexample: the field `BaseField(name="")` exists (construction
has completed) and its label is the empty string, so the invariant "label
is a non-empty string once the field exists" fails at this input. -/
theorem claim_C6_counterexample :
    (BaseField.post_init { name := "" }).label = Option.some "" ∧
    String.length "" = 0 := by
  refine ⟨by decide, by decide⟩

/-- C6 (amended): once construction has completed the label is a string,
never absent: the supplied label if one was given, otherwise derived from
name — so it can be empty only when name is empty or an explicitly empty
label was supplied.  It stays fixed thereafter: changing name after
construction does not change label. -/
theorem claim_C6_amended :
    ∀ f : BaseField,
      ((BaseField.post_init f).label ≠ Option.none) ∧
      ((BaseField.post_init f).label
        = Option.some ((f.label).getD (deriveLabel f.name))) ∧
      (∀ n' : String,
        ({ BaseField.post_init f with name := n' }).label
          = (BaseField.post_init f).label) := by
  intro f
  rcases h : f.label with _ | l <;> simp [BaseField.post_init, h]

/-- C7 counterexample: the serialized mapping of a String field has no
`input_type` key — `input_type` is an un-annotated class attribute, not a
dataclass field, and `asdict` serializes dataclass fields only — so the
conversion does not include every declared attribute of the variant. -/
theorem claim_C7_counterexample :
    "input_type" ∉
      (StringField.dict (StringField.post_init { name := "bio" })).map
        Prod.fst := by
  decide

/-- C7 (amended): for every variant, converting any instance to its plain
ordered mapping yields exactly the variant's declared dataclass fields
(inherited and defaulted ones included) as keys, in declaration order — a
constant key list per variant, so two instances of the same variant always
serialize to mappings with the same keys; un-annotated class attributes
such as `input_type` are not included. -/
theorem claim_C7_amended :
    (∀ f : BaseField,
      (BaseField.dict f).map Prod.fst = BaseField.field_names) ∧
    (∀ f : BooleanField,
      (BooleanField.dict f).map Prod.fst = BooleanField.field_names) ∧
    (∀ f : StringField,
      (StringField.dict f).map Prod.fst = StringField.field_names) ∧
    (∀ f : _NumberField,
      (_NumberField.dict f).map Prod.fst = _NumberField.field_names) ∧
    (∀ f : IntegerField,
      (IntegerField.dict f).map Prod.fst = IntegerField.field_names) ∧
    (∀ f : DecimalField,
      (DecimalField.dict f).map Prod.fst = DecimalField.field_names) ∧
    (∀ f : TextAreaField,
      (TextAreaField.dict f).map Prod.fst = TextAreaField.field_names) ∧
    (∀ f : TagsField,
      (TagsField.dict f).map Prod.fst = TagsField.field_names) ∧
    (∀ f : EmailField,
      (EmailField.dict f).map Prod.fst = EmailField.field_names) ∧
    (∀ f : PhoneField,
      (PhoneField.dict f).map Prod.fst = PhoneField.field_names) ∧
    (∀ f : EnumField,
      (EnumField.dict f).map Prod.fst = EnumField.field_names) ∧
    (∀ f : DateTimeField,
      (DateTimeField.dict f).map Prod.fst = DateTimeField.field_names) ∧
    (∀ f : DateField,
      (DateField.dict f).map Prod.fst = DateField.field_names) ∧
    (∀ f : TimeField,
      (TimeField.dict f).map Prod.fst = TimeField.field_names) ∧
    (∀ f : JSONField,
      (JSONField.dict f).map Prod.fst = JSONField.field_names) ∧
    (∀ f : FileField,
      (FileField.dict f).map Prod.fst = FileField.field_names) ∧
    (∀ f : ImageField,
      (ImageField.dict f).map Prod.fst = ImageField.field_names) ∧
    (∀ f : RelationField,
      (RelationField.dict f).map Prod.fst = RelationField.field_names) ∧
    (∀ f : HasOne,
      (HasOne.dict f).map Prod.fst = HasOne.field_names) ∧
    (∀ f : HasMany,
      (HasMany.dict f).map Prod.fst = HasMany.field_names) := by
  refine ⟨?_, ?_, ?_, ?_, ?_, ?_, ?_, ?_, ?_, ?_, ?_, ?_, ?_, ?_, ?_, ?_, ?_,
    ?_, ?_, ?_⟩ <;> exact fun f => rfl

/-- C8: for every variant and every choice of constructor overrides
(ranging over all attribute assignments, i.e. any combination of explicit
arguments over the defaults), serializing the constructed field and then
re-hydrating a field attribute-by-name from that mapping yields exactly the
field obtained by a fresh construction with the identical overrides. -/
theorem claim_C8 :
    (∀ f : BaseField,
      BaseField.rehydrate (BaseField.dict f.post_init)
        = Option.some f.post_init) ∧
    (∀ f : BooleanField,
      BooleanField.rehydrate (BooleanField.dict f.post_init)
        = Option.some f.post_init) ∧
    (∀ f : StringField,
      StringField.rehydrate (StringField.dict f.post_init)
        = Option.some f.post_init) ∧
    (∀ f : _NumberField,
      _NumberField.rehydrate (_NumberField.dict f.post_init)
        = Option.some f.post_init) ∧
    (∀ f : IntegerField,
      IntegerField.rehydrate (IntegerField.dict f.post_init)
        = Option.some f.post_init) ∧
    (∀ f : DecimalField,
      DecimalField.rehydrate (DecimalField.dict f.post_init)
        = Option.some f.post_init) ∧
    (∀ f : TextAreaField,
      TextAreaField.rehydrate (TextAreaField.dict f.post_init)
        = Option.some f.post_init) ∧
    (∀ f : TagsField,
      TagsField.rehydrate (TagsField.dict f.post_init)
        = Option.some f.post_init) ∧
    (∀ f : EmailField,
      EmailField.rehydrate (EmailField.dict f.post_init)
        = Option.some f.post_init) ∧
    (∀ f : PhoneField,
      PhoneField.rehydrate (PhoneField.dict f.post_init)
        = Option.some f.post_init) ∧
    (∀ f : EnumField,
      EnumField.rehydrate (EnumField.dict f.post_init)
        = Option.some f.post_init) ∧
    (∀ f : DateTimeField,
      DateTimeField.rehydrate (DateTimeField.dict f.post_init)
        = Option.some f.post_init) ∧
    (∀ f : DateField,
      DateField.rehydrate (DateField.dict f.post_init)
        = Option.some f.post_init) ∧
    (∀ f : TimeField,
      TimeField.rehydrate (TimeField.dict f.post_init)
        = Option.some f.post_init) ∧
    (∀ f : JSONField,
      JSONField.rehydrate (JSONField.dict f.post_init)
        = Option.some f.post_init) ∧
    (∀ f : FileField,
      FileField.rehydrate (FileField.dict f.post_init)
        = Option.some f.post_init) ∧
    (∀ f : ImageField,
      ImageField.rehydrate (ImageField.dict f.post_init)
        = Option.some f.post_init) ∧
    (∀ f : RelationField,
      RelationField.rehydrate (RelationField.dict f.post_init)
        = Option.some f.post_init) ∧
    (∀ f : HasOne,
      HasOne.rehydrate (HasOne.dict f.post_init)
        = Option.some f.post_init) ∧
    (∀ f : HasMany,
      HasMany.rehydrate (HasMany.dict f.post_init)
        = Option.some f.post_init) := by
  refine ⟨?_, ?_, ?_, ?_, ?_, ?_, ?_, ?_, ?_, ?_, ?_, ?_, ?_, ?_, ?_, ?_, ?_,
    ?_, ?_, ?_⟩ <;> intro f <;>
    simp [BaseField.rehydrate, BooleanField.rehydrate, StringField.rehydrate,
      _NumberField.rehydrate, IntegerField.rehydrate, DecimalField.rehydrate,
      TextAreaField.rehydrate, TagsField.rehydrate, EmailField.rehydrate,
      PhoneField.rehydrate, EnumField.rehydrate, DateTimeField.rehydrate,
      DateField.rehydrate, TimeField.rehydrate, JSONField.rehydrate,
      FileField.rehydrate, ImageField.rehydrate, RelationField.rehydrate,
      HasOne.rehydrate, HasMany.rehydrate, decode_dict_BaseField,
      decode_dict_BooleanField, decode_dict_StringField,
      decode_dict__NumberField, decode_dict_IntegerField,
      decode_dict_DecimalField, decode_dict_TextAreaField,
      decode_dict_TagsField, decode_dict_EmailField, decode_dict_PhoneField,
      decode_dict_EnumField, decode_dict_DateTimeField, decode_dict_DateField,
      decode_dict_TimeField, decode_dict_JSONField, decode_dict_FileField,
      decode_dict_ImageField, decode_dict_RelationField, decode_dict_HasOne,
      decode_dict_HasMany, post_init_idem_BaseField,
      post_init_idem_BooleanField, post_init_idem_StringField,
      post_init_idem__NumberField, post_init_idem_IntegerField,
      post_init_idem_DecimalField, post_init_idem_TextAreaField,
      post_init_idem_TagsField, post_init_idem_EmailField,
      post_init_idem_PhoneField, post_init_idem_EnumField,
      post_init_idem_DateTimeField, post_init_idem_DateField,
      post_init_idem_TimeField, post_init_idem_JSONField,
      post_init_idem_FileField, post_init_idem_ImageField,
      post_init_idem_RelationField, post_init_idem_HasOne,
      post_init_idem_HasMany]

/-- C9: a HasMany field constructed with only name and identity has
`many=True` and `is_array=True`; a HasOne field constructed with only name
and identity has `is_array=False`. -/
theorem claim_C9 (n i : String) :
    (HasMany.post_init { name := n, identity := Option.some i }).many
      = true ∧
    (HasMany.post_init { name := n, identity := Option.some i }).is_array
      = Option.some true ∧
    (HasOne.post_init { name := n, identity := Option.some i }).is_array
      = Option.some false := by
  exact ⟨rfl, rfl, rfl⟩

/-- C10: a Phone field keeps the type tag `"StringField"` (the variant
overrides only the un-annotated `input_type`, not the `type` field), its
serialized mapping is identical to that of a String field constructed with
the same arguments, and only the input-attribute string differs:
`type="phone"` against `type="text"`. -/
theorem claim_C10 (n : String) :
    (PhoneField.post_init { name := n }).type = "StringField" ∧
    PhoneField.dict (PhoneField.post_init { name := n })
      = StringField.dict (StringField.post_init { name := n }) ∧
    PhoneField.input_params (PhoneField.post_init { name := n })
      = "type=\"phone\"" ∧
    StringField.input_params (StringField.post_init { name := n })
      = "type=\"text\"" ∧
    ("type=\"phone\"" : String) ≠ "type=\"text\"" := by
  refine ⟨rfl, rfl, rfl, rfl, by decide⟩
